import Mathlib

/-!
Verification of the flex-fuse mount/unmount orchestrator.

A shallow embedding of `pkg/flex/mounter.go`.  Effectful Go code is
modelled by explicit state passing: a state `St` carries a logical clock
(advanced only by `time.Sleep`) and an ordered trace of the externally
visible effects (container creation/removal, directory creation, symlink
creation, the `umount` invocation, mount-table probes and sleeps).  The
outcomes of external collaborators (the container runtime, the
filesystem, the `mount` listing) are supplied by an environment `Env` of
oracles, so every embedded function is a pure, executable Lean function.
-/

deriving instance DecidableEq for Except

/-- Outcome of an `os.Stat` call on a path, as the Go code distinguishes
them: the path exists, `os.IsNotExist` holds for the error, or some other
stat error occurred. -/
inductive StatRes
  | found
  | notExist
  | statError
deriving DecidableEq

/-- Modelled from the spec: the directory-descriptor record (name and
permission bits) that the repository defines next to the mounter; only
its two fields are used by `createDirs`. -/
structure DirToCreate where
  Name : String
  Permissions : Nat
deriving DecidableEq

/-- The observable outcomes of `json.Unmarshal` on the spec's
`DirsToCreate` string, as the Go code distinguishes them: the empty
string (unmarshal fails but is tolerated), a non-empty string that fails
to unmarshal, or a successfully parsed descriptor list. -/
inductive DirsField
  | emptyStr
  | malformed
  | parsed (dirs : List DirToCreate)
deriving DecidableEq

/-- Modelled from the spec: the Mount Specification record (cluster
identity, access credential, container name, optional sub-path, namespace
and the optional directory-descriptor list); its type lives outside
`mounter.go`.  `validates` records the outcome of the (likewise external)
`spec.validate()` call. -/
structure Spec where
  AccessKey : String
  ClusterName : String
  Container : String
  SubPath : String
  Namespace : String
  DirsToCreate : DirsField
  validates : Bool
deriving DecidableEq

def Spec.GetAccessKey (s : Spec) : String := s.AccessKey

def Spec.GetClusterName (s : Spec) : String := s.ClusterName

/-- Modelled from the spec: the configuration record loaded by
`NewConfig` (outside `mounter.go`).  `ConfigType` stands for the Go field
`Config.Type` (`Type` is reserved in Lean); `DataURLs` is the cluster
connection-string resolver, `none` meaning the resolution error. -/
structure Config where
  ConfigType : String
  ImageRepository : String
  ImageTag : String
  V3ioConfigPath : String
  DataURLs : String → Option String

structure Mounter where
  Config : Config

/-- Modelled from the spec: the structured outcome (status plus
human-readable message) produced by `NewSuccessResponse` and
`NewFailResponse`, whose type lives outside `mounter.go`. -/
inductive Response
  | success (msg : String)
  | fail (msg : String)
deriving DecidableEq

/-- Externally visible effects of one invocation, in order. -/
inductive Event
  | probe (path : String)
  | sleepEv (secs : Nat)
  | criCreate
  | removeContainer (contName : String)
  | createContainer (image contName target : String) (args : List String)
  | mkdirAll (path : String) (perm : Nat)
  | removePath (path : String)
  | symlink (oldPath newPath : String)
  | umountStart (target : String)
deriving DecidableEq

/-- Execution state: a logical clock in seconds (advanced only by
`time.Sleep`) and the accumulated effect trace. -/
structure St where
  time : Nat
  events : List Event
deriving DecidableEq

def emit (st : St) (e : Event) : St := ⟨st.time, st.events ++ [e]⟩

def sleep (st : St) (n : Nat) : St := ⟨st.time + n, st.events ++ [Event.sleepEv n]⟩

/-- The oracles describing the external world: the output of the `mount`
command at each instant (`none` when the command fails), and the
success/failure of each container-runtime and filesystem operation. -/
structure Env where
  mountOutput : Nat → Option String
  criOk : Bool
  removeOk : String → Bool
  createOk : String → Bool
  statRes : String → StatRes
  mkdirOk : String → Bool
  removePathOk : String → Bool
  symlinkOk : String → Bool
  umountStartOk : Bool

/-- Whether `needle` occurs as a contiguous run inside `haystack`. -/
def charsInfixOf (needle : List Char) : List Char → Bool
  | [] => needle.isEmpty
  | b :: bs => needle.isPrefixOf (b :: bs) || charsInfixOf needle bs

/-- Go `strings.Contains haystack needle`. -/
def strContains (s sub : String) : Bool := charsInfixOf sub.toList s.toList

/-- Split a character list on a separator character, keeping empty
segments, like Go's `strings.Split`. -/
def splitOnChar (sep : Char) : List Char → List (List Char)
  | [] => [[]]
  | c :: cs =>
    match splitOnChar sep cs with
    | [] => [[]]
    | seg :: segs => if c == sep then [] :: seg :: segs else (c :: seg) :: segs

/-- Go `strings.Split s (String.singleton sep)`. -/
def strSplit (s : String) (sep : Char) : List String :=
  (splitOnChar sep s.toList).map String.mk

/-- Go `strings.HasPrefix s pre`. -/
def strStartsWith (s pre : String) : Bool := pre.toList.isPrefixOf s.toList

/-- The prober `isMountPoint` from `mounter.go`: run `mount`; if the command fails
report not-mounted, otherwise check whether `path ++ " type"` occurs in
the listing. -/
def isMountPoint (env : Env) (t : Nat) (path : String) : Bool :=
  match env.mountOutput t with
  | none => false
  | some out => strContains out (path ++ " type")

/-- A call of `isMountPoint` by the orchestrator: the probe is recorded
in the trace and reads the mount table at the current instant. -/
def probeMount (env : Env) (st : St) (path : String) : Bool × St :=
  (isMountPoint env st.time path, emit st (Event.probe path))

/-- The scan inside `getContainerNameFromTargetPath`: walk the split
segments looking for `"pods"`; on the first hit, require a following
segment and build `v3io-fuse-<pod id>-<last segment>`. -/
def scanForPods (targetPath : String) (full : List String) : List String → Except String String
  | [] => Except.error ("Could not find pod directory in path: " ++ targetPath)
  | p :: rest =>
    if p == "pods" then
      match rest with
      | [] => Except.error ("Expected a directory after pods, found it at the end: " ++ targetPath)
      | podID :: _ => Except.ok ("v3io-fuse-" ++ podID ++ "-" ++ full.getLastD "")
    else scanForPods targetPath full rest

/-- The resolver `getContainerNameFromTargetPath` from `mounter.go`: split the path
on `filepath.Separator` and scan for the `"pods"` segment. -/
def getContainerNameFromTargetPath (targetPath : String) : Except String String :=
  let splitTargetPath := strSplit targetPath '/'
  scanForPods targetPath splitTargetPath splitTargetPath

/-- The function `removeV3IOFUSEContainer` from `mounter.go`: resolve the container
name from the target path, then ask the runtime to remove it. -/
def removeV3IOFUSEContainer (env : Env) (targetPath : String) (st : St) :
    Option String × St :=
  match getContainerNameFromTargetPath targetPath with
  | Except.error e => (some ("Could not get container name: " ++ e), st)
  | Except.ok contName =>
    let st' := emit st (Event.removeContainer contName)
    if env.removeOk contName then (none, st')
    else (some ("Could not remove container for " ++ targetPath), st')

/-- The per-character backslash escaping applied to the container and
sub-path arguments: `"\\" + strings.Join(strings.Split(s, ""), "\\")`. -/
def backslashEncode (s : String) : String :=
  s.toList.foldl (fun acc c => acc ++ "\\" ++ String.singleton c) ""

/-- The helper's argument vector as built inside
`createV3IOFUSEContainer`: the fixed flags, the optional config-file
flag, and — only when the container field is non-empty — the escaped
`-a` flag, with the escaped `-p` sub-path flag nested inside it. -/
def containerArgs (cfg : Config) (spec : Spec) (dataUrls : String) : List String :=
  let args := ["/fuse/mounter.sh", "-o", "allow_other",
               "--connection_strings", dataUrls,
               "--mountpoint", "/fuse_mount",
               "--session_key", spec.GetAccessKey]
  let args := if cfg.V3ioConfigPath != "" then args ++ ["-f", cfg.V3ioConfigPath] else args
  if spec.Container != "" then
    let args := args ++ ["-a", backslashEncode spec.Container]
    if spec.SubPath != "" then args ++ ["-p", backslashEncode spec.SubPath] else args
  else args

/-- The polling loop at the end of `createV3IOFUSEContainer`: for each
interval of the schedule, probe first and return success immediately if
mounted, otherwise sleep for the interval; fail once the schedule is
exhausted. -/
def pollMounted (env : Env) (target : String) : List Nat → St → Bool × St
  | [], st => (false, st)
  | interval :: rest, st =>
    let pr := probeMount env st target
    if pr.1 then (true, pr.2)
    else pollMounted env target rest (sleep pr.2 interval)

/-- The Lifecycle Manager `createV3IOFUSEContainer` from `mounter.go`: create a CRI client,
default the image reference, resolve data URLs and the container name,
attempt removal of a pre-existing container (ignoring its result), create
the container, then poll the 1s, 2s, 4s, 2s, 1s schedule for the mount to
appear. -/
def createV3IOFUSEContainer (env : Env) (cfg : Config) (spec : Spec)
    (targetPath : String) (st : St) : Option String × St :=
  if !env.criOk then (some "Failed to create CRI", st)
  else
    let st := emit st Event.criCreate
    let imageRepository := if cfg.ImageRepository == "" then "iguazio/v3io-fuse" else cfg.ImageRepository
    let imageTag := if cfg.ImageTag == "" then "local" else cfg.ImageTag
    match cfg.DataURLs spec.GetClusterName with
    | none => (some "Could not get cluster data urls", st)
    | some dataUrls =>
      match getContainerNameFromTargetPath targetPath with
      | Except.error e => (some ("Failed to get container name: " ++ e), st)
      | Except.ok contName =>
        let st := (removeV3IOFUSEContainer env targetPath st).2
        let args := containerArgs cfg spec dataUrls
        let st := emit st (Event.createContainer (imageRepository ++ ":" ++ imageTag) contName targetPath args)
        if !env.createOk contName then
          (some ("Failed to create container for " ++ targetPath), st)
        else
          let pr := pollMounted env targetPath [1, 2, 4, 2, 1] st
          if pr.1 then (none, pr.2)
          else (some ("Failed to mount " ++ targetPath ++ " due to timeout"), pr.2)

/-- The loop body of `createDirs` over the parsed descriptor list:
reject absolute names, skip directories that already exist, create the
absent ones with the descriptor's permissions. -/
def createDirsList (env : Env) (targetPath : String) : List DirToCreate → St → Option String × St
  | [], st => (none, st)
  | dir :: rest, st =>
    if strStartsWith dir.Name "/" then
      (some ("Only creation of relative path is supported (" ++ dir.Name ++ ")"), st)
    else
      let dirToCreate := targetPath ++ "/" ++ dir.Name
      match env.statRes dirToCreate with
      | StatRes.found => createDirsList env targetPath rest st
      | StatRes.statError => (some ("Stat failed for folder " ++ dirToCreate), st)
      | StatRes.notExist =>
        let st' := emit st (Event.mkdirAll dirToCreate dir.Permissions)
        if env.mkdirOk dirToCreate then createDirsList env targetPath rest st'
        else (some ("Failed to create folder " ++ dir.Name), st')

/-- The function `createDirs` from `mounter.go`: unmarshal the `dirsToCreate` string
(an empty string is tolerated, any other unmarshal failure is an error)
and process the descriptor list. -/
def createDirs (env : Env) (spec : Spec) (targetPath : String) (st : St) :
    Option String × St :=
  match spec.DirsToCreate with
  | DirsField.malformed => (some "Failed to parse dirsToCreate", st)
  | DirsField.emptyStr => (none, st)
  | DirsField.parsed dirs => createDirsList env targetPath dirs st

/-- The tail of `mountAsLink`: remove whatever sits at the per-pod target
path and create the symlink from it to the shared link path. -/
def linkFinish (env : Env) (linkPath targetPath : String) (st : St) : Response × St :=
  let st := emit st (Event.removePath targetPath)
  if !env.removePathOk targetPath then
    (Response.fail ("Failed to remove target " ++ targetPath), st)
  else
    let st := emit st (Event.symlink linkPath targetPath)
    if !env.symlinkOk targetPath then
      (Response.fail ("Failed to create link " ++ linkPath ++ " to target " ++ targetPath), st)
    else (Response.success "Successfully mounted as link", st)

/-- The link-mode strategy `mountAsLink` from `mounter.go`.  The shared path is
`path.Join("/mnt/v3io", spec.Namespace, spec.Container)`, written here as
plain concatenation (the two components are slash-free non-empty names in
every kubelet invocation, for which `path.Join` is exactly this). -/
def mountAsLink (env : Env) (cfg : Config) (spec : Spec) (targetPath : String)
    (st : St) : Response × St :=
  let linkPath := "/mnt/v3io/" ++ spec.Namespace ++ "/" ++ spec.Container
  let pr := probeMount env st linkPath
  if !pr.1 then
    let st2 := emit pr.2 (Event.mkdirAll linkPath 493)
    if !env.mkdirOk linkPath then
      (Response.fail ("Failed to create target " ++ linkPath), st2)
    else
      match createV3IOFUSEContainer env cfg spec linkPath st2 with
      | (some _, st3) => (Response.fail "Failed to create v3io FUSE container", st3)
      | (none, st3) => linkFinish env linkPath targetPath st3
  else linkFinish env linkPath targetPath pr.2

/-- The observable outcomes of `json.Unmarshal` on the kubelet-supplied
spec string: either it fails, or it yields a `Spec` value. -/
inductive SpecInput
  | malformed
  | parsed (spec : Spec)

/-- The orchestrator `Mount` from `mounter.go`: unmarshal and validate the spec, dispatch
to link mode, succeed if the target is already mounted, otherwise create
the FUSE container and pre-create the declared directories. -/
def Mount (env : Env) (m : Mounter) (targetPath : String) (specString : SpecInput)
    (st : St) : Response × St :=
  match specString with
  | SpecInput.malformed => (Response.fail "Failed to unmarshal spec", st)
  | SpecInput.parsed spec =>
    if !spec.validates then (Response.fail "Mount failed validation", st)
    else if m.Config.ConfigType == "link" then mountAsLink env m.Config spec targetPath st
    else
      let pr := probeMount env st targetPath
      if pr.1 then (Response.success ("Already mounted: " ++ targetPath), pr.2)
      else
        match createV3IOFUSEContainer env m.Config spec targetPath pr.2 with
        | (some _, st') => (Response.fail "Failed to create v3io FUSE container", st')
        | (none, st') =>
          match createDirs env spec targetPath st' with
          | (some _, st'') => (Response.fail "Failed to create folders", st'')
          | (none, st'') => (Response.success "Successfully mounted", st'')

/-- The function `unmountAsLink` from `mounter.go`: remove the per-pod symlink. -/
def unmountAsLink (env : Env) (targetPath : String) (st : St) : Response × St :=
  let st := emit st (Event.removePath targetPath)
  if !env.removePathOk targetPath then (Response.fail "unable to remove link", st)
  else (Response.success "link removed", st)

/-- The polling loop at the end of `Unmount`: for each interval of the
schedule, probe first; once the path is no longer mounted, remove the
directory and succeed; fail once the schedule is exhausted. -/
def unmountPoll (env : Env) (targetPath : String) : List Nat → St → Response × St
  | [], st => (Response.fail ("Failed to umount " ++ targetPath ++ " due to timeout"), st)
  | interval :: rest, st =>
    let pr := probeMount env st targetPath
    if !pr.1 then
      let st' := emit pr.2 (Event.removePath targetPath)
      if !env.removePathOk targetPath then
        (Response.fail ("Could not remove directory " ++ targetPath), st')
      else (Response.success "Successfully unmounted", st')
    else unmountPoll env targetPath rest (sleep pr.2 interval)

/-- The orchestrator `Unmount` from `mounter.go`: dispatch to link mode, succeed if the
target is not mounted, otherwise remove the container, start `umount`,
and poll the 1s, 2s, 4s schedule for the mount to disappear. -/
def Unmount (env : Env) (m : Mounter) (targetPath : String) (st : St) : Response × St :=
  if m.Config.ConfigType == "link" then unmountAsLink env targetPath st
  else
    let pr := probeMount env st targetPath
    if !pr.1 then (Response.success (targetPath ++ " Not a mountpoint, nothing to do"), pr.2)
    else if !env.criOk then (Response.fail "Failed to create CRI", pr.2)
    else
      let st := emit pr.2 Event.criCreate
      match removeV3IOFUSEContainer env targetPath st with
      | (some _, st') => (Response.fail "Failed to remove v3io FUSE container", st')
      | (none, st') =>
        let st'' := emit st' (Event.umountStart targetPath)
        if !env.umountStartOk then (Response.fail "Failed to call unmount", st'')
        else unmountPoll env targetPath [1, 2, 4] st''

/-- Classifier for container-creation events. -/
def isCreateContainerEv : Event → Bool
  | Event.createContainer _ _ _ _ => true
  | _ => false

/-- Classifier for symlink-creation events. -/
def isSymlinkEv : Event → Bool
  | Event.symlink _ _ => true
  | _ => false

/-- Classifier for path-removal events. -/
def isRemovePathEv : Event → Bool
  | Event.removePath _ => true
  | _ => false

/-- The instants at which a check-then-sleep polling loop started at
`t0` consults the prober, one per schedule entry. -/
def probeTimes (t0 : Nat) : List Nat → List Nat
  | [] => []
  | i :: rest => t0 :: probeTimes (t0 + i) rest

/-- The trace left by a polling loop that exhausts its whole schedule:
a probe followed by a sleep, for each schedule entry. -/
def timeoutPollEvents (tp : String) : List Nat → List Event
  | [] => []
  | i :: rest => Event.probe tp :: Event.sleepEv i :: timeoutPollEvents tp rest

/-- The segment right after the first `"pods"` segment, when both exist:
the success condition and pod-id of the Path Identity Resolver as the
spec states it. -/
def afterFirstPods : List String → Option String
  | [] => none
  | a :: rest => if a == "pods" then rest.head? else afterFirstPods rest

/-- Concrete environment for the C9 witness: the mount listing is
available at instant 0 and unavailable at instant 1. -/
def envC9 : Env where
  mountOutput := fun t => if t = 0 then some "v3io on /x type fuse (rw)" else none
  criOk := true
  removeOk := fun _ => true
  createOk := fun _ => true
  statRes := fun _ => StatRes.found
  mkdirOk := fun _ => true
  removePathOk := fun _ => true
  symlinkOk := fun _ => true
  umountStartOk := true

/-- Concrete specification for the C10 witness: empty container field
but a non-empty sub-path. -/
def specC10 : Spec where
  AccessKey := "key"
  ClusterName := "cl"
  Container := ""
  SubPath := "sub/dir"
  Namespace := "default"
  DirsToCreate := DirsField.emptyStr
  validates := true

/-- Concrete configuration for the C10 witness. -/
def cfgC10 : Config where
  ConfigType := ""
  ImageRepository := ""
  ImageTag := ""
  V3ioConfigPath := ""
  DataURLs := fun _ => some "http://webapi"

/-- Concrete environment for the C2 witness: the target is always an
active mount point. -/
def envC2 : Env where
  mountOutput := fun _ => some "v3io on /t type fuse (rw)"
  criOk := true
  removeOk := fun _ => true
  createOk := fun _ => true
  statRes := fun _ => StatRes.found
  mkdirOk := fun _ => true
  removePathOk := fun _ => true
  symlinkOk := fun _ => true
  umountStartOk := true

/-- Concrete mounter (direct mode) shared by the C2 and C3 witnesses. -/
def mC2 : Mounter where
  Config :=
    { ConfigType := ""
      ImageRepository := ""
      ImageTag := ""
      V3ioConfigPath := ""
      DataURLs := fun _ => some "http://webapi" }

/-- Concrete valid specification for the C2 witness. -/
def specC2 : Spec where
  AccessKey := "key"
  ClusterName := "cl"
  Container := "bucket"
  SubPath := ""
  Namespace := "default"
  DirsToCreate := DirsField.emptyStr
  validates := true

/-- Concrete environment for the C3 witness: nothing is mounted. -/
def envC3 : Env where
  mountOutput := fun _ => some ""
  criOk := true
  removeOk := fun _ => true
  createOk := fun _ => true
  statRes := fun _ => StatRes.found
  mkdirOk := fun _ => true
  removePathOk := fun _ => true
  symlinkOk := fun _ => true
  umountStartOk := true

/-- Concrete environment for the C6 witness: `/t/a/b` is absent and can
be created, `/t/x` already exists. -/
def envC6 : Env where
  mountOutput := fun _ => some ""
  criOk := true
  removeOk := fun _ => true
  createOk := fun _ => true
  statRes := fun p => if p = "/t/a/b" then StatRes.notExist else StatRes.found
  mkdirOk := fun _ => true
  removePathOk := fun _ => true
  symlinkOk := fun _ => true
  umountStartOk := true

/-- The image reference used by `createV3IOFUSEContainer`: repository
and tag with their documented defaults when unset. -/
def imageRef (cfg : Config) : String :=
  (if cfg.ImageRepository == "" then "iguazio/v3io-fuse" else cfg.ImageRepository)
    ++ ":" ++ (if cfg.ImageTag == "" then "local" else cfg.ImageTag)

/-- The state just before the polling loop of a successful
`createV3IOFUSEContainer` run: CRI client created, removal of the old
container attempted, new container created. -/
def preCreateState (cfg : Config) (spec : Spec) (tp : String)
    (contName dataUrls : String) (st : St) : St :=
  ⟨st.time, st.events ++
    [Event.criCreate, Event.removeContainer contName,
     Event.createContainer (imageRef cfg) contName tp (containerArgs cfg spec dataUrls)]⟩

/-- The polling discipline asserted by the claim for refinement
comparison: for each entry of the wait schedule, sleep for that interval
first and consult the Mount-State Prober after the step, succeeding as
soon as a probe sees the path mounted. -/
def pollMountedSpec (env : Env) (target : String) : List Nat → St → Bool × St
  | [], st => (false, st)
  | interval :: rest, st =>
    let st' := sleep st interval
    let pr := probeMount env st' target
    if pr.1 then (true, pr.2)
    else pollMountedSpec env target rest pr.2

/-- Target path (a kubelet pods path) used by the C1 scenario. -/
def tpC1 : String := "/var/lib/kubelet/pods/p1/volumes/v3io~fuse/v1"

/-- Environment for the C1 counterexample: the FUSE mount appears in the
mount table only from instant 10 onwards — i.e. during the final wait
step of the schedule; every collaborator operation succeeds. -/
def envC1 : Env where
  mountOutput := fun t =>
    if 10 ≤ t then some "/var/lib/kubelet/pods/p1/volumes/v3io~fuse/v1 type fuse (rw)"
    else some ""
  criOk := true
  removeOk := fun _ => true
  createOk := fun _ => true
  statRes := fun _ => StatRes.found
  mkdirOk := fun _ => true
  removePathOk := fun _ => true
  symlinkOk := fun _ => true
  umountStartOk := true

/-- Configuration used by the C1 scenario. -/
def cfgC1 : Config where
  ConfigType := ""
  ImageRepository := ""
  ImageTag := ""
  V3ioConfigPath := ""
  DataURLs := fun _ => some "http://webapi"

/-- Specification used by the C1 scenario. -/
def specC1 : Spec where
  AccessKey := "key"
  ClusterName := "cl"
  Container := "bucket"
  SubPath := ""
  Namespace := "default"
  DirsToCreate := DirsField.emptyStr
  validates := true

/-- Environment for the C1 witness: the path is mounted from the start
and the removal oracle reports failure — showing the removal attempt's
failure is swallowed. -/
def envC1w : Env where
  mountOutput := fun _ => some "/var/lib/kubelet/pods/p1/volumes/v3io~fuse/v1 type fuse (rw)"
  criOk := true
  removeOk := fun _ => false
  createOk := fun _ => true
  statRes := fun _ => StatRes.found
  mkdirOk := fun _ => true
  removePathOk := fun _ => true
  symlinkOk := fun _ => true
  umountStartOk := true

/-- Environment for the C5 witness: the target stays mounted forever, so
the unmount poll times out. -/
def envC5 : Env where
  mountOutput := fun _ => some "/var/lib/kubelet/pods/p1/volumes/v3io~fuse/v1 type fuse (rw)"
  criOk := true
  removeOk := fun _ => true
  createOk := fun _ => true
  statRes := fun _ => StatRes.found
  mkdirOk := fun _ => true
  removePathOk := fun _ => true
  symlinkOk := fun _ => true
  umountStartOk := true

/-- Environment for the C7 scenario: nothing is mounted anywhere, every
collaborator operation succeeds. -/
def envC7 : Env where
  mountOutput := fun _ => some ""
  criOk := true
  removeOk := fun _ => true
  createOk := fun _ => true
  statRes := fun _ => StatRes.found
  mkdirOk := fun _ => true
  removePathOk := fun _ => true
  symlinkOk := fun _ => true
  umountStartOk := true

/-- Link-mode configuration for the C7 scenario. -/
def cfgC7 : Config where
  ConfigType := "link"
  ImageRepository := ""
  ImageTag := ""
  V3ioConfigPath := ""
  DataURLs := fun _ => some "http://webapi"

/-- Mounter in link mode for the C7 scenario. -/
def mC7 : Mounter where
  Config := cfgC7

/-- Specification for the C7 scenario: an ordinary namespace and
container name. -/
def specC7 : Spec where
  AccessKey := "key"
  ClusterName := "cl"
  Container := "data"
  SubPath := ""
  Namespace := "default"
  DirsToCreate := DirsField.emptyStr
  validates := true

/-- Environment for the C8 counterexample: the target is unmounted at
instant 0 and mounted from instant 1 on (the helper container's mount
appears during the first polling wait); every operation succeeds. -/
def envC8 : Env where
  mountOutput := fun t =>
    if t = 0 then some ""
    else some "/var/lib/kubelet/pods/p1/volumes/v3io~fuse/v1 type fuse (rw)"
  criOk := true
  removeOk := fun _ => true
  createOk := fun _ => true
  statRes := fun _ => StatRes.found
  mkdirOk := fun _ => true
  removePathOk := fun _ => true
  symlinkOk := fun _ => true
  umountStartOk := true

/-- Direct-mode mounter for the C8 counterexample. -/
def mC8 : Mounter where
  Config :=
    { ConfigType := ""
      ImageRepository := ""
      ImageTag := ""
      V3ioConfigPath := ""
      DataURLs := fun _ => some "http://webapi" }

/-- Specification for the C8 counterexample: valid except for its
malformed directory-descriptor list. -/
def specC8 : Spec where
  AccessKey := "key"
  ClusterName := "cl"
  Container := "bucket"
  SubPath := ""
  Namespace := "default"
  DirsToCreate := DirsField.malformed
  validates := true

theorem scanForPods_char (targetPath : String) (full : List String) :
    ∀ l : List String,
      (∀ s, afterFirstPods l = some s →
        scanForPods targetPath full l =
          Except.ok ("v3io-fuse-" ++ s ++ "-" ++ full.getLastD ""))
      ∧ (afterFirstPods l = none → (scanForPods targetPath full l).isOk = false) := by
  intro l
  induction l with
  | nil => exact ⟨fun s hs => by simp [afterFirstPods] at hs, fun _ => rfl⟩
  | cons a rest ih =>
    by_cases ha : a == "pods"
    · refine ⟨fun s hs => ?_, fun hn => ?_⟩
      · simp only [afterFirstPods, ha, if_true] at hs
        cases rest with
        | nil => simp at hs
        | cons b bs =>
          simp only [List.head?] at hs
          cases hs
          simp [scanForPods, ha]
      · simp only [afterFirstPods, ha, if_true] at hn
        cases rest with
        | nil => simp [scanForPods, ha, Except.isOk, Except.toBool]
        | cons b bs => simp [List.head?] at hn
    · refine ⟨fun s hs => ?_, fun hn => ?_⟩
      · simp only [afterFirstPods, ha, if_false] at hs
        simpa [scanForPods, ha] using (ih.1 s hs)
      · simp only [afterFirstPods, ha, if_false] at hn
        simpa [scanForPods, ha] using (ih.2 hn)

/-- C4: the Path Identity Resolver `getContainerNameFromTargetPath` is a
pure, deterministic function; for every path whose separator-split
segments contain a `"pods"` segment followed by at least one further
segment, it returns `v3io-fuse-<segment after the first "pods">-<final
segment>`, and it returns an error exactly when no `"pods"` segment is
followed by a further one.  In particular
`/a/pods/XYZ/volumes/v3io~fuse/vol1` resolves to `v3io-fuse-XYZ-vol1`,
while `/a/pods` and `/a/b/c` yield errors. -/
theorem c4_container_name :
    (∀ targetPath : String,
      (∀ s, afterFirstPods (strSplit targetPath '/') = some s →
        getContainerNameFromTargetPath targetPath =
          Except.ok ("v3io-fuse-" ++ s ++ "-" ++ (strSplit targetPath '/').getLastD ""))
      ∧ (afterFirstPods (strSplit targetPath '/') = none →
        (getContainerNameFromTargetPath targetPath).isOk = false))
    ∧ getContainerNameFromTargetPath "/a/pods/XYZ/volumes/v3io~fuse/vol1" =
        Except.ok "v3io-fuse-XYZ-vol1"
    ∧ (getContainerNameFromTargetPath "/a/pods").isOk = false
    ∧ (getContainerNameFromTargetPath "/a/b/c").isOk = false := by
  refine ⟨fun targetPath => ?_, by decide, by decide, by decide⟩
  exact scanForPods_char targetPath (strSplit targetPath '/') (strSplit targetPath '/')

/-- Witness for C4 at the spec's own example path. -/
theorem c4_witness :
    afterFirstPods (strSplit "/a/pods/XYZ/volumes/v3io~fuse/vol1" '/') = some "XYZ"
    ∧ getContainerNameFromTargetPath "/a/pods/XYZ/volumes/v3io~fuse/vol1" =
        Except.ok ("v3io-fuse-" ++ "XYZ" ++ "-" ++
          (strSplit "/a/pods/XYZ/volumes/v3io~fuse/vol1" '/').getLastD "") :=
  ⟨by decide, (c4_container_name.1 "/a/pods/XYZ/volumes/v3io~fuse/vol1").1 "XYZ" (by decide)⟩

/-- C9: the Mount-State Prober `isMountPoint` always returns a boolean
and never raises an error (it is Bool-valued by construction); it returns
the mount-entry containment check `strContains out (path ++ " type")`
exactly when the mount listing `out` is successfully obtained, and it
returns false whenever the mount table cannot be queried. -/
theorem c9_prober (env : Env) (t : Nat) (p : String) :
    (env.mountOutput t = none → isMountPoint env t p = false)
    ∧ (∀ out, env.mountOutput t = some out →
        isMountPoint env t p = strContains out (p ++ " type")) := by
  constructor
  · intro h; simp [isMountPoint, h]
  · intro out h; simp [isMountPoint, h]

/-- Witness for C9: at instant 0 the prober reports the containment
check's value (true here), at instant 1 the listing fails and it reports
false. -/
theorem c9_witness :
    isMountPoint envC9 0 "/x" = strContains "v3io on /x type fuse (rw)" ("/x" ++ " type")
    ∧ isMountPoint envC9 1 "/x" = false :=
  ⟨(c9_prober envC9 0 "/x").2 "v3io on /x type fuse (rw)" rfl,
   (c9_prober envC9 1 "/x").1 rfl⟩

/-- C10: when the mount specification's container field is empty, the
helper argument vector built by `createV3IOFUSEContainer` is exactly the
base vector — no `-a` container flag and no `-p` sub-path flag are ever
appended, even when a non-empty sub-path is specified; the escaped `-p`
argument is emitted only when the container field is non-empty. -/
theorem c10_subpath_requires_container (cfg : Config) (spec : Spec) (dataUrls : String) :
    (spec.Container = "" →
      containerArgs cfg spec dataUrls =
        ["/fuse/mounter.sh", "-o", "allow_other",
         "--connection_strings", dataUrls,
         "--mountpoint", "/fuse_mount",
         "--session_key", spec.GetAccessKey]
        ++ (if cfg.V3ioConfigPath != "" then ["-f", cfg.V3ioConfigPath] else []))
    ∧ (spec.Container ≠ "" → spec.SubPath ≠ "" →
      containerArgs cfg spec dataUrls =
        ["/fuse/mounter.sh", "-o", "allow_other",
         "--connection_strings", dataUrls,
         "--mountpoint", "/fuse_mount",
         "--session_key", spec.GetAccessKey]
        ++ (if cfg.V3ioConfigPath != "" then ["-f", cfg.V3ioConfigPath] else [])
        ++ ["-a", backslashEncode spec.Container, "-p", backslashEncode spec.SubPath]) := by
  constructor
  · intro h
    by_cases hv : cfg.V3ioConfigPath = "" <;> simp [containerArgs, h, hv]
  · intro hc hs
    by_cases hv : cfg.V3ioConfigPath = "" <;> simp [containerArgs, hc, hs, hv]

/-- Witness for C10: with an empty container and non-empty sub-path the
argument vector is the bare base vector. -/
theorem c10_witness :
    specC10.Container = ""
    ∧ specC10.SubPath = "sub/dir"
    ∧ containerArgs cfgC10 specC10 "u" =
        ["/fuse/mounter.sh", "-o", "allow_other",
         "--connection_strings", "u",
         "--mountpoint", "/fuse_mount",
         "--session_key", specC10.GetAccessKey]
        ++ (if cfgC10.V3ioConfigPath != "" then ["-f", cfgC10.V3ioConfigPath] else []) :=
  ⟨rfl, rfl, (c10_subpath_requires_container cfgC10 specC10 "u").1 rfl⟩

/-- C2: with a valid specification, outside link mode, when the target
path is already an active mount point, `Mount` returns success
immediately and the only effect is the single mount-table probe — no
container removal, creation, sleeping or any other effect, and the clock
does not advance; consequently a second `Mount` straight after returns
success as well. -/
theorem c2_mount_idempotent (env : Env) (m : Mounter) (targetPath : String)
    (spec : Spec) (t0 : Nat) (evs : List Event)
    (hlink : m.Config.ConfigType ≠ "link")
    (hval : spec.validates = true)
    (hmount : isMountPoint env t0 targetPath = true) :
    Mount env m targetPath (SpecInput.parsed spec) ⟨t0, evs⟩ =
      (Response.success ("Already mounted: " ++ targetPath),
        ⟨t0, evs ++ [Event.probe targetPath]⟩)
    ∧ (Mount env m targetPath (SpecInput.parsed spec)
        (Mount env m targetPath (SpecInput.parsed spec) ⟨t0, evs⟩).2).1 =
      Response.success ("Already mounted: " ++ targetPath) := by
  have h1 : Mount env m targetPath (SpecInput.parsed spec) ⟨t0, evs⟩ =
      (Response.success ("Already mounted: " ++ targetPath),
        ⟨t0, evs ++ [Event.probe targetPath]⟩) := by
    simp [Mount, probeMount, emit, hval, hlink, hmount]
  refine ⟨h1, ?_⟩
  rw [h1]
  simp [Mount, probeMount, emit, hval, hlink, hmount]

/-- Witness for C2: both back-to-back mounts of the mounted target
succeed. -/
theorem c2_witness :
    mC2.Config.ConfigType ≠ "link"
    ∧ isMountPoint envC2 0 "/t" = true
    ∧ (Mount envC2 mC2 "/t" (SpecInput.parsed specC2) ⟨0, []⟩).1 =
        Response.success ("Already mounted: " ++ "/t")
    ∧ (Mount envC2 mC2 "/t" (SpecInput.parsed specC2)
        (Mount envC2 mC2 "/t" (SpecInput.parsed specC2) ⟨0, []⟩).2).1 =
        Response.success ("Already mounted: " ++ "/t") := by
  have h := c2_mount_idempotent envC2 mC2 "/t" specC2 0 [] (by decide) rfl (by decide)
  exact ⟨by decide, by decide, by rw [h.1], h.2⟩

/-- C3: outside link mode, when the target path is not an active mount
point, `Unmount` returns success immediately and the only effect is the
single mount-table probe — no CRI client is created, no container is
removed, and no `umount` request is issued. -/
theorem c3_unmount_noop (env : Env) (m : Mounter) (targetPath : String)
    (t0 : Nat) (evs : List Event)
    (hlink : m.Config.ConfigType ≠ "link")
    (hmount : isMountPoint env t0 targetPath = false) :
    Unmount env m targetPath ⟨t0, evs⟩ =
      (Response.success (targetPath ++ " Not a mountpoint, nothing to do"),
        ⟨t0, evs ++ [Event.probe targetPath]⟩) := by
  simp [Unmount, probeMount, emit, hlink, hmount]

/-- Witness for C3: unmounting a never-mounted target succeeds with only
the probe in the trace. -/
theorem c3_witness :
    isMountPoint envC3 0 "/t" = false
    ∧ Unmount envC3 mC2 "/t" ⟨0, []⟩ =
        (Response.success ("/t" ++ " Not a mountpoint, nothing to do"),
          ⟨0, [] ++ [Event.probe "/t"]⟩) :=
  ⟨by decide, c3_unmount_noop envC3 mC2 "/t" 0 [] (by decide) (by decide)⟩

/-- C6: over any directory-descriptor list, `createDirs` (through its
loop `createDirsList`) fails whenever some descriptor names an absolute
path; when every name is relative and each directory either already
exists or can be created, it succeeds, leaves existing directories
untouched, and emits exactly one `MkdirAll` with the descriptor's
permission bits for each absent directory; a list holding only the
descriptor `/etc` fails leaving the state untouched; and on a parsed
descriptor list `createDirs` is exactly this loop. -/
theorem c6_createDirs (env : Env) (tp : String) :
    (∀ (dirs : List DirToCreate) (st : St),
      (∃ d ∈ dirs, strStartsWith d.Name "/" = true) →
      ((createDirsList env tp dirs st).1).isSome = true)
    ∧ (∀ (dirs : List DirToCreate) (st : St),
      (∀ d ∈ dirs, strStartsWith d.Name "/" = false ∧
        (env.statRes (tp ++ "/" ++ d.Name) = StatRes.found ∨
          (env.statRes (tp ++ "/" ++ d.Name) = StatRes.notExist ∧
            env.mkdirOk (tp ++ "/" ++ d.Name) = true))) →
      createDirsList env tp dirs st =
        (none, ⟨st.time,
          st.events ++
            (dirs.filter (fun d => env.statRes (tp ++ "/" ++ d.Name) == StatRes.notExist)).map
              (fun d => Event.mkdirAll (tp ++ "/" ++ d.Name) d.Permissions)⟩))
    ∧ (∀ (p : Nat) (st : St),
      createDirsList env tp [⟨"/etc", p⟩] st =
        (some "Only creation of relative path is supported (/etc)", st))
    ∧ (∀ (spec : Spec) (st : St) (dirs : List DirToCreate),
      spec.DirsToCreate = DirsField.parsed dirs →
      createDirs env spec tp st = createDirsList env tp dirs st) := by
  refine ⟨?_, ?_, fun p st => rfl, fun spec st dirs h => by simp [createDirs, h]⟩
  · intro dirs
    induction dirs with
    | nil => intro st h; simp at h
    | cons d rest ih =>
      intro st h
      obtain ⟨d', hmem, habs⟩ := h
      by_cases h1 : strStartsWith d.Name "/"
      · simp [createDirsList, h1]
      · have hm : d' ∈ rest := by
          rcases List.mem_cons.mp hmem with rfl | hm
          · exact absurd habs (by simp [h1])
          · exact hm
        rcases hstat : env.statRes (tp ++ "/" ++ d.Name) with _ | _ | _
        · simpa [createDirsList, h1, hstat] using ih st ⟨d', hm, habs⟩
        · by_cases hmk : env.mkdirOk (tp ++ "/" ++ d.Name)
          · simpa [createDirsList, h1, hstat, hmk] using
              ih (emit st (Event.mkdirAll (tp ++ "/" ++ d.Name) d.Permissions)) ⟨d', hm, habs⟩
          · simp [createDirsList, h1, hstat, hmk]
        · simp [createDirsList, h1, hstat]
  · intro dirs
    induction dirs with
    | nil => intro st _; simp [createDirsList]
    | cons d rest ih =>
      intro st hall
      obtain ⟨habs, hcase⟩ := hall d (List.mem_cons_self d rest)
      have htail := fun d' hd' => hall d' (List.mem_cons_of_mem d hd')
      rcases hcase with hfound | ⟨hne, hmk⟩
      · have := ih st htail
        simp [createDirsList, habs, hfound, this]
      · have := ih (emit st (Event.mkdirAll (tp ++ "/" ++ d.Name) d.Permissions)) htail
        simp only [emit] at this
        simp [createDirsList, habs, hne, hmk, emit, this]

/-- Witness for C6: the spec's own example list creates `/t/a/b` with
mode 0755 (493), skips the existing `/t/x`, and succeeds. -/
theorem c6_witness :
    createDirsList envC6 "/t" [⟨"a/b", 493⟩, ⟨"x", 511⟩] ⟨0, []⟩ =
      (none, ⟨0, [] ++ [Event.mkdirAll "/t/a/b" 493]⟩) := by
  have h := (c6_createDirs envC6 "/t").2.1 [⟨"a/b", 493⟩, ⟨"x", 511⟩] ⟨0, []⟩ (by decide)
  rw [h]
  decide

theorem removeV3IOFUSEContainer_snd (env : Env) (tp : String) (st : St)
    (contName : String)
    (h : getContainerNameFromTargetPath tp = Except.ok contName) :
    (removeV3IOFUSEContainer env tp st).2 = emit st (Event.removeContainer contName) := by
  cases henv : env.removeOk contName <;> simp [removeV3IOFUSEContainer, h, henv]

theorem pollMounted_fst (env : Env) (tp : String) :
    ∀ (sched : List Nat) (st : St),
      (pollMounted env tp sched st).1 =
        (probeTimes st.time sched).any (fun u => isMountPoint env u tp) := by
  intro sched
  induction sched with
  | nil => intro st; simp [pollMounted, probeTimes]
  | cons i rest ih =>
    intro st
    simp only [pollMounted, probeMount, probeTimes, List.any_cons]
    cases h : isMountPoint env st.time tp
    · rw [if_neg Bool.false_ne_true]
      rw [ih (sleep (emit st (Event.probe tp)) i)]
      simp [sleep, emit]
    · simp [h]

theorem pollMounted_timeout (env : Env) (tp : String) :
    ∀ (sched : List Nat) (st : St),
      (probeTimes st.time sched).all (fun u => !(isMountPoint env u tp)) = true →
      pollMounted env tp sched st =
        (false, ⟨st.time + sched.sum, st.events ++ timeoutPollEvents tp sched⟩) := by
  intro sched
  induction sched with
  | nil =>
    intro st _
    simp [pollMounted, probeTimes, timeoutPollEvents]
  | cons i rest ih =>
    intro st hall
    simp only [probeTimes, List.all_cons, Bool.and_eq_true] at hall
    obtain ⟨h0, htail⟩ := hall
    have h : isMountPoint env st.time tp = false := by simpa using h0
    have hrec := ih (sleep (emit st (Event.probe tp)) i) (by simpa [sleep, emit] using htail)
    simp only [pollMounted, probeMount, h]
    rw [if_neg Bool.false_ne_true]
    rw [hrec]
    simp [sleep, emit, timeoutPollEvents, Nat.add_assoc]

theorem pollMounted_events_prefix (env : Env) (tp : String) :
    ∀ (sched : List Nat) (st : St),
      ∃ tail, (pollMounted env tp sched st).2.events = st.events ++ tail := by
  intro sched
  induction sched with
  | nil => intro st; exact ⟨[], by simp [pollMounted]⟩
  | cons i rest ih =>
    intro st
    cases h : isMountPoint env st.time tp
    · obtain ⟨tail, htail⟩ := ih (sleep (emit st (Event.probe tp)) i)
      refine ⟨[Event.probe tp, Event.sleepEv i] ++ tail, ?_⟩
      simp only [pollMounted, probeMount, h]
      rw [if_neg Bool.false_ne_true]
      rw [htail]
      simp [sleep, emit]
    · exact ⟨[Event.probe tp], by simp [pollMounted, probeMount, h, emit]⟩

theorem createContainer_run (env : Env) (cfg : Config) (spec : Spec) (tp : String)
    (st : St) (contName dataUrls : String)
    (hcri : env.criOk = true)
    (hurls : cfg.DataURLs spec.GetClusterName = some dataUrls)
    (hname : getContainerNameFromTargetPath tp = Except.ok contName)
    (hcreate : env.createOk contName = true) :
    createV3IOFUSEContainer env cfg spec tp st =
      (let pr := pollMounted env tp [1, 2, 4, 2, 1]
        (preCreateState cfg spec tp contName dataUrls st)
       if pr.1 then (none, pr.2)
       else (some ("Failed to mount " ++ tp ++ " due to timeout"), pr.2)) := by
  have hrm := removeV3IOFUSEContainer_snd env tp (emit st Event.criCreate) contName hname
  simp only [createV3IOFUSEContainer, hcri, hurls, hname, hcreate, hrm]
  simp [preCreateState, imageRef, emit, List.append_assoc]

/-- C1 (amended): under a resolvable target path, reachable runtime and
data URLs, and a successful container creation, `createV3IOFUSEContainer`
first attempts removal of the container derived from the target path
with the removal outcome ignored (the environment's removal oracle is
unconstrained here), then creates the container, then polls the fixed
wait schedule 1s, 2s, 4s, 2s, 1s — checking the Mount-State Prober
before each wait step, i.e. at offsets 0, 1, 3, 7 and 9 seconds —
returning success exactly when one of those five probes sees the path
mounted, and otherwise failing with the mount-timeout condition after
sleeping the full 10 seconds.  Unlike the claim's wording, no probe
happens after the final wait step. -/
theorem c1_ensure_bound (env : Env) (cfg : Config) (spec : Spec) (tp : String)
    (t0 : Nat) (contName dataUrls : String)
    (hcri : env.criOk = true)
    (hurls : cfg.DataURLs spec.GetClusterName = some dataUrls)
    (hname : getContainerNameFromTargetPath tp = Except.ok contName)
    (hcreate : env.createOk contName = true) :
    ((createV3IOFUSEContainer env cfg spec tp ⟨t0, []⟩).2.events.take 3 =
      [Event.criCreate, Event.removeContainer contName,
       Event.createContainer (imageRef cfg) contName tp (containerArgs cfg spec dataUrls)])
    ∧ probeTimes t0 [1, 2, 4, 2, 1] = [t0, t0 + 1, t0 + 3, t0 + 7, t0 + 9]
    ∧ ((createV3IOFUSEContainer env cfg spec tp ⟨t0, []⟩).1 = none ↔
        (probeTimes t0 [1, 2, 4, 2, 1]).any (fun u => isMountPoint env u tp) = true)
    ∧ ((probeTimes t0 [1, 2, 4, 2, 1]).all (fun u => !(isMountPoint env u tp)) = true →
        (createV3IOFUSEContainer env cfg spec tp ⟨t0, []⟩).1 =
          some ("Failed to mount " ++ tp ++ " due to timeout")
        ∧ (createV3IOFUSEContainer env cfg spec tp ⟨t0, []⟩).2.time = t0 + 10) := by
  have hrun := createContainer_run env cfg spec tp ⟨t0, []⟩ contName dataUrls
    hcri hurls hname hcreate
  have htime : (preCreateState cfg spec tp contName dataUrls (⟨t0, []⟩ : St)).time = t0 := by
    simp [preCreateState]
  have hevs : (preCreateState cfg spec tp contName dataUrls (⟨t0, []⟩ : St)).events =
      [Event.criCreate, Event.removeContainer contName,
       Event.createContainer (imageRef cfg) contName tp (containerArgs cfg spec dataUrls)] := by
    simp [preCreateState]
  refine ⟨?_, by simp [probeTimes, Nat.add_assoc], ?_, ?_⟩
  · rw [hrun]
    obtain ⟨tail, htail⟩ := pollMounted_events_prefix env tp [1, 2, 4, 2, 1]
      (preCreateState cfg spec tp contName dataUrls ⟨t0, []⟩)
    rw [hevs] at htail
    cases hb : (pollMounted env tp [1, 2, 4, 2, 1]
        (preCreateState cfg spec tp contName dataUrls ⟨t0, []⟩)).1 <;>
      simp [hb, htail]
  · rw [hrun]
    have hfst := pollMounted_fst env tp [1, 2, 4, 2, 1]
      (preCreateState cfg spec tp contName dataUrls ⟨t0, []⟩)
    rw [htime] at hfst
    rw [← hfst]
    cases hb : (pollMounted env tp [1, 2, 4, 2, 1]
        (preCreateState cfg spec tp contName dataUrls ⟨t0, []⟩)).1 <;> simp [hb]
  · intro hall
    rw [← htime] at hall
    have htimeout := pollMounted_timeout env tp [1, 2, 4, 2, 1]
      (preCreateState cfg spec tp contName dataUrls ⟨t0, []⟩) hall
    rw [hrun]
    simp only [htimeout]
    rw [if_neg Bool.false_ne_true]
    simp [preCreateState]

/-- Counterexample for C1 as stated: in an environment where the mount
appears only during the final 1-second wait step, the claimed discipline
of checking the prober after each wait step finds the path mounted at
its last check (instant 10) and would report success, but the code —
which checks before each wait step and never after the last — fails with
the mount-timeout condition. -/
theorem c1_counterexample :
    (createV3IOFUSEContainer envC1 cfgC1 specC1 tpC1 ⟨0, []⟩).1 =
      some ("Failed to mount " ++ tpC1 ++ " due to timeout")
    ∧ (pollMountedSpec envC1 tpC1 [1, 2, 4, 2, 1] ⟨0, []⟩).1 = true := by decide

/-- Witness for C1: the amended theorem applied to a concrete
environment (with a failing removal oracle, which is swallowed). -/
theorem c1_witness :
    ((createV3IOFUSEContainer envC1w cfgC1 specC1 tpC1 ⟨0, []⟩).2.events.take 3 =
      [Event.criCreate, Event.removeContainer "v3io-fuse-p1-v1",
       Event.createContainer (imageRef cfgC1) "v3io-fuse-p1-v1" tpC1
         (containerArgs cfgC1 specC1 "http://webapi")])
    ∧ ((createV3IOFUSEContainer envC1w cfgC1 specC1 tpC1 ⟨0, []⟩).1 = none ↔
        (probeTimes 0 [1, 2, 4, 2, 1]).any (fun u => isMountPoint envC1w u tpC1) = true) := by
  have h := c1_ensure_bound envC1w cfgC1 specC1 tpC1 0 "v3io-fuse-p1-v1" "http://webapi"
    rfl rfl (by decide) rfl
  exact ⟨h.1, h.2.2.1⟩

theorem timeoutPollEvents_no_removePath (tp p : String) :
    ∀ sched : List Nat, Event.removePath p ∉ timeoutPollEvents tp sched := by
  intro sched
  induction sched with
  | nil => simp [timeoutPollEvents]
  | cons i rest ih => simp [timeoutPollEvents, ih]

theorem unmountPoll_timeout (env : Env) (tp : String) :
    ∀ (sched : List Nat) (st : St),
      (probeTimes st.time sched).all (fun u => isMountPoint env u tp) = true →
      unmountPoll env tp sched st =
        (Response.fail ("Failed to umount " ++ tp ++ " due to timeout"),
          ⟨st.time + sched.sum, st.events ++ timeoutPollEvents tp sched⟩) := by
  intro sched
  induction sched with
  | nil =>
    intro st _
    simp [unmountPoll, probeTimes, timeoutPollEvents]
  | cons i rest ih =>
    intro st hall
    simp only [probeTimes, List.all_cons, Bool.and_eq_true] at hall
    obtain ⟨h, htail⟩ := hall
    have hrec := ih (sleep (emit st (Event.probe tp)) i) (by simpa [sleep, emit] using htail)
    simp only [unmountPoll, probeMount, h, Bool.not_true]
    rw [if_neg Bool.false_ne_true]
    rw [hrec]
    simp [sleep, emit, timeoutPollEvents, Nat.add_assoc]

theorem unmountPoll_success (env : Env) (tp : String)
    (hrm : env.removePathOk tp = true) :
    ∀ (sched : List Nat) (st : St),
      (probeTimes st.time sched).any (fun u => !(isMountPoint env u tp)) = true →
      (unmountPoll env tp sched st).1 = Response.success "Successfully unmounted"
      ∧ Event.removePath tp ∈ (unmountPoll env tp sched st).2.events := by
  intro sched
  induction sched with
  | nil => intro st h; simp [probeTimes] at h
  | cons i rest ih =>
    intro st hany
    simp only [probeTimes, List.any_cons, Bool.or_eq_true] at hany
    cases h : isMountPoint env st.time tp
    · simp [unmountPoll, probeMount, h, hrm, emit]
    · have htail : (probeTimes (st.time + i) rest).any (fun u => !(isMountPoint env u tp)) = true := by
        rcases hany with h0 | ht
        · rw [h] at h0; simp at h0
        · exact ht
      have hrec := ih (sleep (emit st (Event.probe tp)) i) (by simpa [sleep, emit] using htail)
      simp only [unmountPoll, probeMount, h, Bool.not_true]
      rw [if_neg Bool.false_ne_true]
      exact hrec

theorem unmount_run (env : Env) (m : Mounter) (tp : String) (t0 : Nat)
    (contName : String)
    (hlink : m.Config.ConfigType ≠ "link")
    (hmted : isMountPoint env t0 tp = true)
    (hcri : env.criOk = true)
    (hname : getContainerNameFromTargetPath tp = Except.ok contName)
    (hrm : env.removeOk contName = true)
    (hum : env.umountStartOk = true) :
    Unmount env m tp ⟨t0, []⟩ =
      unmountPoll env tp [1, 2, 4]
        ⟨t0, [Event.probe tp, Event.criCreate, Event.removeContainer contName,
          Event.umountStart tp]⟩ := by
  simp [Unmount, probeMount, emit, hlink, hmted, hcri, hname, hrm, hum,
    removeV3IOFUSEContainer]

/-- C5: in a direct-mode `Unmount` of a mounted target path, once the
container removal has succeeded and the `umount` request is started, the
orchestrator polls the 1s, 2s, 4s schedule (7 seconds of sleeping worst
case, probing at offsets 0, 1 and 3): if every probe still sees the
path mounted it fails with the unmount-timeout condition, the clock has
advanced exactly 7 seconds, and no directory removal happens (the mount
directory is left behind); if some probe sees the path unmounted (and
the directory removal succeeds) it removes the now-empty mount
directory and reports success. -/
theorem c5_unmount_poll (env : Env) (m : Mounter) (tp : String) (t0 : Nat)
    (contName : String)
    (hlink : m.Config.ConfigType ≠ "link")
    (hmted : isMountPoint env t0 tp = true)
    (hcri : env.criOk = true)
    (hname : getContainerNameFromTargetPath tp = Except.ok contName)
    (hrm : env.removeOk contName = true)
    (hum : env.umountStartOk = true) :
    (Unmount env m tp ⟨t0, []⟩ =
      unmountPoll env tp [1, 2, 4]
        ⟨t0, [Event.probe tp, Event.criCreate, Event.removeContainer contName,
          Event.umountStart tp]⟩)
    ∧ probeTimes t0 [1, 2, 4] = [t0, t0 + 1, t0 + 3]
    ∧ ((probeTimes t0 [1, 2, 4]).all (fun u => isMountPoint env u tp) = true →
        (Unmount env m tp ⟨t0, []⟩).1 =
          Response.fail ("Failed to umount " ++ tp ++ " due to timeout")
        ∧ (Unmount env m tp ⟨t0, []⟩).2.time = t0 + 7
        ∧ Event.removePath tp ∉ (Unmount env m tp ⟨t0, []⟩).2.events)
    ∧ ((probeTimes t0 [1, 2, 4]).any (fun u => !(isMountPoint env u tp)) = true →
        env.removePathOk tp = true →
        (Unmount env m tp ⟨t0, []⟩).1 = Response.success "Successfully unmounted"
        ∧ Event.removePath tp ∈ (Unmount env m tp ⟨t0, []⟩).2.events) := by
  have hrun := unmount_run env m tp t0 contName hlink hmted hcri hname hrm hum
  refine ⟨hrun, by simp [probeTimes, Nat.add_assoc], ?_, ?_⟩
  · intro hall
    have htimeout := unmountPoll_timeout env tp [1, 2, 4]
      ⟨t0, [Event.probe tp, Event.criCreate, Event.removeContainer contName,
        Event.umountStart tp]⟩ hall
    rw [hrun, htimeout]
    refine ⟨rfl, rfl, ?_⟩
    simp
    exact fun hmem => timeoutPollEvents_no_removePath tp tp [1, 2, 4] hmem
  · intro hany hrmp
    have := unmountPoll_success env tp hrmp [1, 2, 4]
      ⟨t0, [Event.probe tp, Event.criCreate, Event.removeContainer contName,
        Event.umountStart tp]⟩ hany
    rw [hrun]
    exact this

/-- Witness for C5: with the mount never disappearing, `Unmount` fails
with the timeout condition after 7 seconds of sleeping. -/
theorem c5_witness :
    (Unmount envC5 mC2 tpC1 ⟨0, []⟩).1 =
      Response.fail ("Failed to umount " ++ tpC1 ++ " due to timeout")
    ∧ (Unmount envC5 mC2 tpC1 ⟨0, []⟩).2.time = 0 + 7 := by
  have h := (c5_unmount_poll envC5 mC2 tpC1 0 "v3io-fuse-p1-v1"
    (by decide) (by decide) rfl (by decide) rfl rfl).2.2.1 (by decide)
  exact ⟨h.1, h.2.1⟩

/-- C7 (code bug): in link mode with an ordinary namespace/container
(`default`/`data`) and the shared path not yet mounted, `Mount` does not
bind a helper container to the shared path and creates no symlink: it
fails outright, because the Lifecycle Manager derives the container
identity from the path it is given, and the shared path
`/mnt/v3io/default/data` contains no `pods` segment, so identity
resolution fails before any container or symlink is created.  The
claimed two-symlinks-one-container behaviour is therefore unreachable
for namespaces without a literal `pods` segment. -/
theorem c7_linkmode_bug :
    (Mount envC7 mC7 tpC1 (SpecInput.parsed specC7) ⟨0, []⟩).1 =
      Response.fail "Failed to create v3io FUSE container"
    ∧ (Mount envC7 mC7 tpC1 (SpecInput.parsed specC7) ⟨0, []⟩).2.events.any isSymlinkEv = false
    ∧ (Mount envC7 mC7 tpC1 (SpecInput.parsed specC7) ⟨0, []⟩).2.events.any isCreateContainerEv = false
    ∧ getContainerNameFromTargetPath "/mnt/v3io/default/data" =
        Except.error "Could not find pod directory in path: /mnt/v3io/default/data" := by
  decide

/-- C8 (amended): a specification string that fails to unmarshal, or a
parsed specification that fails validation, makes `Mount` fail
immediately with the state — clock and effect trace — completely
unchanged (no container removed or created, no directory created, no
symlink made).  A malformed directory-descriptor list, by contrast, is
detected only inside `createDirs`, which runs after the helper container
has been bound: when the direct-mode bind succeeds, `Mount` fails with
the folder-creation failure but in the state already carrying the
container side effects. -/
theorem c8_invalid_input (env : Env) (m : Mounter) (tp : String) (st : St) :
    (Mount env m tp SpecInput.malformed st =
      (Response.fail "Failed to unmarshal spec", st))
    ∧ (∀ spec : Spec, spec.validates = false →
        Mount env m tp (SpecInput.parsed spec) st =
          (Response.fail "Mount failed validation", st))
    ∧ (∀ spec : Spec, spec.validates = true → m.Config.ConfigType ≠ "link" →
        spec.DirsToCreate = DirsField.malformed →
        isMountPoint env st.time tp = false →
        ∀ st' : St,
          createV3IOFUSEContainer env m.Config spec tp (emit st (Event.probe tp)) =
            (none, st') →
          Mount env m tp (SpecInput.parsed spec) st =
            (Response.fail "Failed to create folders", st')) := by
  refine ⟨rfl, fun spec hval => by simp [Mount, hval],
    fun spec hval hlink hdirs hm st' hcc => ?_⟩
  simp [Mount, probeMount, hval, hlink, hm, hcc, createDirs, hdirs]

/-- Counterexample for C8 as stated: a mount specification whose
directory-descriptor list is malformed — invalid input in the claim's
sense — does not fail free of side effects: the run fails with the
folder-creation failure, yet its trace contains a container creation. -/
theorem c8_counterexample :
    (Mount envC8 mC8 tpC1 (SpecInput.parsed specC8) ⟨0, []⟩).1 =
      Response.fail "Failed to create folders"
    ∧ (Mount envC8 mC8 tpC1 (SpecInput.parsed specC8) ⟨0, []⟩).2.events.any
        isCreateContainerEv = true := by
  decide

/-- Witness for C8: the amended theorem applied to the concrete
malformed-descriptor-list run. -/
theorem c8_witness :
    specC8.validates = true
    ∧ specC8.DirsToCreate = DirsField.malformed
    ∧ (Mount envC8 mC8 tpC1 (SpecInput.parsed specC8) ⟨0, []⟩).1 =
        Response.fail "Failed to create folders" := by
  have h := (c8_invalid_input envC8 mC8 tpC1 ⟨0, []⟩).2.2 specC8 rfl (by decide) rfl
    (by decide)
    (createV3IOFUSEContainer envC8 mC8.Config specC8 tpC1
      (emit ⟨0, []⟩ (Event.probe tpC1))).2 (by decide)
  exact ⟨rfl, rfl, by rw [h]⟩
